import Mathlib

/-!
Verification of the pydanticV2-argparse field-classification and
argument-synthesis engine.

The definitions below are a shallow embedding of the live code paths of the
repository: `pydanticV2_argparse/parser.py` (the `ArgumentParser` class with
`_add_field`, `_add_argument_base`, `add_argument`, `error`, `_commands`,
`_add_model`, `parse_typed_args`) and the flat module
`pydanticV2_argparse/utils.py` (`_iter_candidate_annotations`,
`_single_annotation_matches`, `is_field_a`, `as_validator`,
`model_with_validators`, `name`, `to_dict`, `format_error`).

Python runtime annotations are embedded as the inductive `Ann`; Python classes
relevant to classification are the inductive `PyClass`, with `pySubclassB`
recording the standard-library subclass facts the code relies on
(for example `str` and `dict` are `collections.abc.Container` subclasses,
`dict` is a `collections.abc.Mapping` subclass, user enums subclass
`enum.Enum`, user models subclass `pydantic.BaseModel`).
-/

/-- Embedded Python runtime values, as far as the engine inspects them.
`undefinedVal` stands for the pydantic `PydanticUndefined` sentinel and `objRef`
stands for any other object (such as a class accidentally kept in a
literal-choice list), carrying only its display text. -/
inductive PyVal where
  | pyNone
  | undefinedVal
  | boolV (b : Bool)
  | intV (n : Int)
  | strV (s : String)
  | enumMember (ename mname : String)
  | objRef (txt : String)
deriving DecidableEq

/-- Embedded Python classes that the classification code compares against.
`enumC` carries the member names of a user enum subclass; `modelC` is a user
pydantic model subclass. `containerABC` and `mappingABC` are
`collections.abc.Container` and `collections.abc.Mapping`. -/
inductive PyClass where
  | noneT
  | boolC
  | intC
  | floatC
  | strC
  | bytesC
  | listC
  | setC
  | tupleC
  | dictC
  | enumC (ename : String) (members : List String)
  | modelC (mname : String)
  | enumBase
  | baseModel
  | containerABC
  | mappingABC
deriving DecidableEq

/-- Python `issubclass` restricted to the classes the code compares:
reflexivity plus the standard-library subclass facts used by the engine. -/
def pySubclassB : PyClass → PyClass → Bool
  | .boolC, .intC => true
  | .strC, .containerABC => true
  | .bytesC, .containerABC => true
  | .listC, .containerABC => true
  | .setC, .containerABC => true
  | .tupleC, .containerABC => true
  | .dictC, .containerABC => true
  | .dictC, .mappingABC => true
  | .mappingABC, .containerABC => true
  | .enumC _ _, .enumBase => true
  | .modelC _, .baseModel => true
  | a, b => a == b

/-- Embedded type annotations: a bare class, a subscripted generic with its
origin class (such as `List[str]` with origin `list`), a `Literal[...]` with
its values, or a `Union[...]` (which also covers `Optional[...]`). -/
inductive Ann where
  | cls (c : PyClass)
  | generic (origin : PyClass) (args : List Ann)
  | lit (vals : List PyVal)
  | union (args : List Ann)

/-- Whether an annotation is the class `NoneType` (the `arg is type(None)`
check of `_iter_candidate_annotations`). -/
def isNoneType : Ann → Bool
  | .cls .noneT => true
  | _ => false

mutual
/-- Embedding of `utils._iter_candidate_annotations`: yield the non-None
annotations of a possibly-union annotation, recursing into unions and
discarding the `NoneType` branch. -/
def iterCandidates : Ann → List Ann
  | .union args => iterCandidatesList args
  | .cls c => [.cls c]
  | .generic o args => [.generic o args]
  | .lit vs => [.lit vs]

/-- List worker for `iterCandidates`, mirroring the `for arg in get_args(tp)`
loop with its `continue` on `NoneType`. -/
def iterCandidatesList : List Ann → List Ann
  | [] => []
  | a :: rest => (if isNoneType a then [] else iterCandidates a) ++ iterCandidatesList rest
end

/-- The second argument of `utils.is_field_a`: either a Python class or the
`typing.Literal` special form. -/
inductive Expected where
  | pyc (c : PyClass)
  | literalMark
deriving DecidableEq

/-- Embedding of `utils._single_annotation_matches`: a `Literal[...]`
annotation matches only the `Literal` marker; otherwise the comparison is on
`get_origin(annotation) or annotation`, by identity, equality or
`issubclass`. A union never reaches this function with a class expected,
since candidates are already unwrapped, and the `Union` special form is not a
class. -/
def singleAnnotationMatches : Ann → Expected → Bool
  | .lit _, e => e == .literalMark
  | .union _, _ => false
  | .cls c, e =>
    match e with
    | .pyc ec => c == ec || pySubclassB c ec
    | .literalMark => false
  | .generic c _, e =>
    match e with
    | .pyc ec => c == ec || pySubclassB c ec
    | .literalMark => false

/-- Embedding of `utils.is_field_a`: false when the field has no annotation
or no non-None candidate branch; otherwise true when any candidate branch
matches any of the expected types. -/
def isFieldA (fieldAnn : Option Ann) (types : List Expected) : Bool :=
  match fieldAnn with
  | none => false
  | some t =>
    let candidates := iterCandidates t
    if candidates.isEmpty then false
    else candidates.any fun ann => types.any fun e => singleAnnotationMatches ann e

/-- The six-plus-fallback classification assigned by `_add_field`. -/
inductive Classification where
  | nestedCommand
  | literalSet
  | boolean
  | container
  | mapping
  | enumeration
  | scalar
deriving DecidableEq

/-- Embedding of the branch-selection chain of `ArgumentParser._add_field`:
the `is_Command / is_Literal / is_Boolean / is_Container / is_Mapping /
is_Enum` tests in their if/elif order, with the standard field as fallback. -/
def classify (fa : Option Ann) : Classification :=
  if isFieldA fa [Expected.pyc .baseModel] then .nestedCommand
  else if isFieldA fa [Expected.literalMark] then .literalSet
  else if isFieldA fa [Expected.pyc .boolC] then .boolean
  else if isFieldA fa [Expected.pyc .containerABC] &&
      !(isFieldA fa [Expected.pyc .mappingABC, Expected.pyc .enumBase,
                     Expected.pyc .strC, Expected.pyc .bytesC]) then .container
  else if isFieldA fa [Expected.pyc .mappingABC] then .mapping
  else if isFieldA fa [Expected.pyc .enumBase] then .enumeration
  else .scalar

/-- The classification rule as the specification words it: first unwrap the
union layers discarding the absence branch, then take the first match of the
precedence list, each predicate evaluated as a disjunction over the remaining
branches; the container rule additionally requires that no branch is
string-like, bytes-like, an enumeration or a mapping. -/
def specClassify (branches : List Ann) : Classification :=
  if branches.any (fun b => singleAnnotationMatches b (.pyc .baseModel)) then .nestedCommand
  else if branches.any (fun b => singleAnnotationMatches b .literalMark) then .literalSet
  else if branches.any (fun b => singleAnnotationMatches b (.pyc .boolC)) then .boolean
  else if branches.any (fun b => singleAnnotationMatches b (.pyc .containerABC)) &&
      !(branches.any (fun b =>
          singleAnnotationMatches b (.pyc .mappingABC) ||
          singleAnnotationMatches b (.pyc .enumBase) ||
          singleAnnotationMatches b (.pyc .strC) ||
          singleAnnotationMatches b (.pyc .bytesC))) then .container
  else if branches.any (fun b => singleAnnotationMatches b (.pyc .mappingABC)) then .mapping
  else if branches.any (fun b => singleAnnotationMatches b (.pyc .enumBase)) then .enumeration
  else .scalar

/-- Embedding of `pydantic.fields.FieldInfo` as far as the engine reads it:
the annotation, the default (`none` standing for `PydanticUndefined`), an
embedded default factory (`some v` stands for a factory returning `v`), the
alias and the description. -/
structure FieldInfo where
  annotation : Option Ann
  default : Option PyVal
  defaultFactory : Option PyVal
  aliasName : Option String
  description : Option String

/-- pydantic `FieldInfo.is_required`: no default and no default factory. -/
def isRequired (f : FieldInfo) : Bool :=
  f.default.isNone && f.defaultFactory.isNone

/-- pydantic `FieldInfo.get_default()` without calling the factory: with a
factory present it returns Python `None`; otherwise the declared default, or
the `PydanticUndefined` sentinel when there is none. -/
def getDefaultNoCall (f : FieldInfo) : PyVal :=
  match f.defaultFactory with
  | some _ => .pyNone
  | none =>
    match f.default with
    | some v => v
    | none => .undefinedVal

/-- The default as `_add_argument_base` renders it for help text:
`field.get_default()`, overridden by `field.default_factory()` when a
factory is present. -/
def defaultForHelp (f : FieldInfo) : PyVal :=
  match f.defaultFactory with
  | some v => v
  | none =>
    match f.default with
    | some v => v
    | none => .undefinedVal

/-- Python truthiness of the embedded values, as used by
`bool(field.get_default())` in the boolean branch. -/
def pyTruthy : PyVal → Bool
  | .pyNone => false
  | .undefinedVal => true
  | .boolV b => b
  | .intV n => n != 0
  | .strV s => s != ""
  | .enumMember _ _ => true
  | .objRef _ => true

/-- Python `str.replace` for the single-character pattern the code uses,
mapping each underscore to a hyphen. -/
def underscoreToHyphen (s : String) : String :=
  String.mk (s.data.map fun c => if c = '_' then '-' else c)

/-- Python `str.upper` at the ASCII level of the aliases involved. -/
def pyUpper (s : String) : String :=
  String.mk (s.data.map Char.toUpper)

/-- Embedding of `utils.name`: `--` or `--no-` followed by the alias with
underscores mapped to hyphens (empty alias when unset). -/
def argName (f : FieldInfo) (invert : Bool) : String :=
  (if invert then "--no-" else "--") ++
    underscoreToHyphen (match f.aliasName with | some a => a | none => "")

/-- Embedding of `parser.allows_none`: the annotation is a union with a
`NoneType` branch, or is itself `NoneType`; no recursion into nested
unions. -/
def allowsNone (f : FieldInfo) : Bool :=
  match f.annotation with
  | none => false
  | some (.union args) => args.any isNoneType
  | some (.cls .noneT) => true
  | some _ => false

/-- Display text of an embedded value, following the Python `str` form the
code uses in f-strings, choice mappings and help text. -/
def pyValStr : PyVal → String
  | .pyNone => "None"
  | .undefinedVal => "PydanticUndefined"
  | .boolV true => "True"
  | .boolV false => "False"
  | .intV n => toString n
  | .strV s => s
  | .enumMember e m => e ++ "." ++ m
  | .objRef t => t

/-- Display text of an embedded class (only used inside metavar text for the
degenerate case of a class kept in a literal-choice list). -/
def pyClassStr : PyClass → String
  | .noneT => "NoneType"
  | .boolC => "bool"
  | .intC => "int"
  | .floatC => "float"
  | .strC => "str"
  | .bytesC => "bytes"
  | .listC => "list"
  | .setC => "set"
  | .tupleC => "tuple"
  | .dictC => "dict"
  | .enumC n _ => n
  | .modelC n => n
  | .enumBase => "Enum"
  | .baseModel => "BaseModel"
  | .containerABC => "Container"
  | .mappingABC => "Mapping"

/-- Display text of an annotation, for the same degenerate metavar case. -/
def annStr : Ann → String
  | .cls c => pyClassStr c
  | .generic o _ => pyClassStr o
  | .lit _ => "Literal"
  | .union _ => "Union"

/-- An element of the literal-choice list built by the literal branch of
`_add_field`: either a literal value or a leftover annotation. -/
inductive ChoiceItem where
  | ann (a : Ann)
  | val (v : PyVal)

/-- Display text of a choice element. -/
def choiceStr : ChoiceItem → String
  | .val v => pyValStr v
  | .ann a => annStr a

/-- The value a choice element stands for when stored by the token parser. -/
def choiceVal : ChoiceItem → PyVal
  | .val v => v
  | .ann a => .objRef (annStr a)

/-- Python `typing.get_args` on an embedded annotation, as a list of choice
elements (type arguments for unions and generics, values for literals). -/
def pyGetArgs : Ann → List ChoiceItem
  | .union args => args.map .ann
  | .generic _ args => args.map .ann
  | .lit vs => vs.map .val
  | .cls _ => []

/-- Whether a choice element is the `NoneType` class (filtered out by the
literal branch). -/
def isNoneTypeItem : ChoiceItem → Bool
  | .ann (.cls .noneT) => true
  | _ => false

/-- The one-level `Literal` expansion of the literal branch: a kept
`Literal[...]` argument is replaced by its values, anything else kept. -/
def expandLiteral : ChoiceItem → List ChoiceItem
  | .ann (.lit vs) => vs.map .val
  | c => [c]

/-- Embedding of the choice extraction of the literal branch of `_add_field`:
`get_args`, drop `NoneType`, expand nested `Literal[...]` arguments one
level. -/
def literalChoices (a : Ann) : List ChoiceItem :=
  ((pyGetArgs a).filter (fun c => !isNoneTypeItem c)).flatMap expandLiteral

/-- First non-None candidate annotation, as in
`next(utils._iter_candidate_annotations(...))`. -/
def firstCandidate (a : Ann) : Option Ann :=
  (iterCandidates a).head?

/-- The argparse action classes the engine registers. -/
inductive ActionKind where
  | storeAction
  | storeConstAction
  | storeTrueAction
  | storeFalseAction
  | booleanOptionalAction
deriving DecidableEq

/-- The argparse nargs values the engine passes (only `ONE_OR_MORE`). -/
inductive Nargs where
  | oneOrMore
deriving DecidableEq

/-- Which display group `ArgumentParser.add_argument` routes an argument
to. -/
inductive GroupKind where
  | required
  | optional
deriving DecidableEq

/-- One registered command-line argument: the surface the engine hands to the
underlying token parser plus the display group it was routed to.
`enforcedRequired` is the `required` attribute the underlying argparse action
ends up with. -/
structure ArgSpec where
  flagName : String
  action : ActionKind
  dest : String
  metavar : Option String
  nargs : Option Nargs
  const : Option ChoiceItem
  helpText : String
  grp : GroupKind
  enforcedRequired : Bool

/-- The keyword arguments `_add_argument_base` assembles before calling
`ArgumentParser.add_argument`. -/
structure PendingArg where
  flagName : String
  action : ActionKind
  dest : String
  metavar : Option String
  nargs : Option Nargs
  const : Option ChoiceItem
  helpText : String

/-- Embedding of the overridden `ArgumentParser.add_argument`: the `required`
keyword is popped to choose the display group and is never forwarded, so the
underlying token-parser action keeps the argparse default of not enforcing
presence. -/
def addArgument (requiredKwarg : Bool) (p : PendingArg) : ArgSpec :=
  { flagName := p.flagName
    action := p.action
    dest := p.dest
    metavar := p.metavar
    nargs := p.nargs
    const := p.const
    helpText := p.helpText
    grp := if requiredKwarg then .required else .optional
    enforcedRequired := false }

/-- Embedding of `ArgumentParser._add_argument_base`: recompute the flag name
from the field and the inversion flag, derive the dest from the alias, render
the help text with a `(default: ...)` suffix for optional fields, fall back to
the upper-cased alias as metavar unless suppressed, and hand everything to
`add_argument` with the `required` keyword set from the field. -/
def addArgumentBase (f : FieldInfo) (action : ActionKind) (metavar : Option String)
    (noMetavar : Bool) (isInverted : Bool) (constK : Option ChoiceItem)
    (nargs : Option Nargs) : ArgSpec :=
  let nm := argName f isInverted
  let aliasStr := match f.aliasName with | some a => a | none => nm
  let defaultStr : Option String :=
    if isRequired f then none
    else some ("(default: " ++ pyValStr (defaultForHelp f) ++ ")")
  let helpMsg := String.intercalate " "
    ((([f.description, defaultStr].filterMap id).filter (fun s => s != "")))
  addArgument (isRequired f)
    { flagName := nm
      action := action
      dest := aliasStr
      metavar :=
        if noMetavar then none
        else some (match metavar with
          | some m => if m = "" then pyUpper aliasStr else m
          | none => pyUpper aliasStr)
      nargs := nargs
      const := constK
      helpText := helpMsg }

/-- The caster families `_add_field` wraps into validators: the identity
default, the literal string-form lookup table, the mapping literal-expression
parse, and the enum member-name lookup. -/
inductive VKind where
  | identity
  | literalLookup (mapping : List (String × ChoiceItem))
  | mappingEval
  | enumLookup (ename : String) (members : List String)

/-- A nested-schema field turned into a sub-command by `_add_field`: the
sub-parser is created over the first candidate annotation with its own error
exit disabled. -/
structure SubcommandSpec where
  cmdName : String
  helpText : Option String
  modelAnn : Option Ann
  exitOnError : Bool

/-- Everything `_add_field` produces for one field: the registered argument
surfaces in registration order, the synthesized validator if any, and the
sub-command for nested schemas. -/
structure AddFieldResult where
  specs : List ArgSpec
  validator : Option VKind
  subcommand : Option SubcommandSpec

/-- Embedding of `ArgumentParser._add_field`: classify the field with the
`is_field_a` tests, then synthesize the argument surface, an inverted
companion where the code adds one, and the classification-specific
validator. -/
def addField (f : FieldInfo) : AddFieldResult :=
  let isCommandF := isFieldA f.annotation [Expected.pyc .baseModel]
  let isBooleanF := isFieldA f.annotation [Expected.pyc .boolC]
  let isContainerF := isFieldA f.annotation [Expected.pyc .containerABC] &&
    !(isFieldA f.annotation [Expected.pyc .mappingABC, Expected.pyc .enumBase,
                             Expected.pyc .strC, Expected.pyc .bytesC])
  let isMappingF := isFieldA f.annotation [Expected.pyc .mappingABC]
  let isLiteralF := isFieldA f.annotation [Expected.literalMark]
  let isEnumF := isFieldA f.annotation [Expected.pyc .enumBase]
  if isCommandF then
    { specs := []
      validator := none
      subcommand := some
        { cmdName := match f.aliasName with | some a => a | none => ""
          helpText := f.description
          modelAnn := f.annotation.bind firstCandidate
          exitOnError := false } }
  else if isLiteralF then
    let choices := match f.annotation with | some a => literalChoices a | none => []
    let isFlag := choices.length == 1 && !(isRequired f)
    let isInv := isFlag && (getDefaultNoCall f != PyVal.pyNone) && allowsNone f
    let mv := some ("\x7b" ++ String.intercalate ", " (choices.map choiceStr) ++ "\x7d")
    let action := if isFlag then ActionKind.storeConstAction else ActionKind.storeAction
    let constK : Option ChoiceItem :=
      if !isFlag then none
      else if isInv then some (.val .pyNone)
      else choices.head?
    let invSpecs :=
      if isFlag && allowsNone f then
        [addArgumentBase f action mv false true (some (.val .pyNone)) none]
      else []
    { specs := invSpecs ++ [addArgumentBase f action mv false false constK none]
      validator := some (.literalLookup (choices.map (fun c => (choiceStr c, c))))
      subcommand := none }
  else if isBooleanF then
    let isInv := !(isRequired f) && pyTruthy (getDefaultNoCall f)
    let action :=
      if isRequired f then ActionKind.booleanOptionalAction
      else if isInv then ActionKind.storeFalseAction
      else ActionKind.storeTrueAction
    { specs := [addArgumentBase f action none true isInv none none]
      validator := some .identity
      subcommand := none }
  else if isContainerF then
    { specs := [addArgumentBase f .storeAction none false false none (some .oneOrMore)]
      validator := some .identity
      subcommand := none }
  else if isMappingF then
    { specs := [addArgumentBase f .storeAction none false false none none]
      validator := some .mappingEval
      subcommand := none }
  else if isEnumF then
    let et := f.annotation.bind firstCandidate
    let ename := match et with | some (.cls (.enumC n _)) => n | _ => ""
    let members := match et with | some (.cls (.enumC _ ms)) => ms | _ => []
    let isFlag := members.length == 1 && !(isRequired f)
    let mv := some ("\x7b" ++ String.intercalate ", " members ++ "\x7d")
    let action := if isFlag then ActionKind.storeConstAction else ActionKind.storeAction
    let constK : Option ChoiceItem :=
      if isFlag then members.head?.map (fun m => ChoiceItem.val (.enumMember ename m))
      else none
    let invSpecs :=
      if isFlag && allowsNone f then
        [addArgumentBase f action mv false true (some (.val .pyNone)) none]
      else []
    { specs := invSpecs ++ [addArgumentBase f action mv false false constK none]
      validator := some (.enumLookup ename members)
      subcommand := none }
  else
    { specs := [addArgumentBase f .storeAction none false false none none]
      validator := some .identity
      subcommand := none }

/-- Embedding of the wrapper body of `utils.as_validator`: non-strings pass
through unchanged, the empty string becomes Python `None`, any other string
goes through the caster, and a caster exception (modelled as `none`) returns
the raw string unchanged. -/
def validatorBody (caster : String → Option PyVal) (value : PyVal) : PyVal :=
  match value with
  | .strV s =>
    if s = "" then .pyNone
    else
      match caster s with
      | some r => r
      | none => .strV s
  | v => v

/-- Python dict-comprehension lookup for the literal choice table: a later
binding of the same key wins, and a missing key is a raised `KeyError`
(modelled as `none`). -/
def lookupLastStr (m : List (String × ChoiceItem)) (k : String) : Option ChoiceItem :=
  m.reverse.lookup k

/-- The caster each validator kind wraps, translated from the lambdas of
`_add_field`. The mapping caster is `ast.literal_eval`, an external stdlib
function, so it is taken as the parameter `litEval` (with `none` for a raised
exception). -/
def casterOf (litEval : String → Option PyVal) : VKind → String → Option PyVal
  | .identity => fun s => some (.strV s)
  | .literalLookup m => fun s => (lookupLastStr m s).map choiceVal
  | .mappingEval => litEval
  | .enumLookup en ms => fun s => if ms.contains s then some (.enumMember en s) else none

/-- The inverted spelling of a long flag, `--x` to `--no-x`: the
`"--no-" + flag[2:]` computation, at the character-list level. -/
def invertedFlag (s : String) : String :=
  "--no-" ++ String.mk (s.data.drop 2)

/-- Modelled from the spec: the value a single command-line token stores for
a flag-only argument of the underlying token parser. `BooleanOptionalAction`
comes from the repository actions module, which is not among the sources
here; the spec describes it as the boolean complementary pair
`--flag`/`--no-flag` setting the field to true/false respectively. The
store-const actions store their configured constant; value-taking store
actions are not driven through this flag-only model. -/
def tokenHit (sp : ArgSpec) (tok : String) : Option PyVal :=
  match sp.action with
  | .storeTrueAction => if tok = sp.flagName then some (.boolV true) else none
  | .storeFalseAction => if tok = sp.flagName then some (.boolV false) else none
  | .storeConstAction =>
    if tok = sp.flagName then
      some (match sp.const with | some c => choiceVal c | none => .pyNone)
    else none
  | .booleanOptionalAction =>
    if tok = sp.flagName then some (.boolV true)
    else if tok = invertedFlag sp.flagName then some (.boolV false)
    else none
  | .storeAction => none

/-- Insert or overwrite a key in the flat namespace (argparse `setattr`
semantics: the last write to a dest wins). -/
def upsert (ns : List (String × PyVal)) (k : String) (v : PyVal) : List (String × PyVal) :=
  match ns with
  | [] => [(k, v)]
  | (k2, v2) :: rest => if k2 = k then (k, v) :: rest else (k2, v2) :: upsert rest k v

/-- Modelled from the spec: one token-parsing step over the registered
flag-only arguments; an unrecognized token leaves the namespace unchanged. -/
def stepTok (specs : List ArgSpec) (ns : List (String × PyVal)) (tok : String) :
    List (String × PyVal) :=
  match specs.findSome? (fun sp => (tokenHit sp tok).map (fun v => (sp.dest, v))) with
  | some (d, v) => upsert ns d v
  | none => ns

/-- Modelled from the spec: the underlying token parser consumes the command
line left to right, starting from the empty namespace (the parser suppresses
argparse defaults so omitted flags leave no entry). -/
def evalFlags (specs : List ArgSpec) (toks : List String) : List (String × PyVal) :=
  toks.foldl (stepTok specs) []

/-- pydantic `FieldInfo.get_default(call_default_factory=True)`: the declared
default, calling the factory when present. -/
def pydanticDefault (f : FieldInfo) : PyVal :=
  match f.defaultFactory with
  | some v => v
  | none =>
    match f.default with
    | some v => v
    | none => .undefinedVal

/-- Modelled from the spec: the external schema-validation engine constructs
one field from the raw namespace. A missing key falls back to the declared
default, or is a reported field error for a required field; a supplied raw
value first passes through the synthesized mode-before validator. -/
def constructField (litEval : String → Option PyVal) (f : FieldInfo)
    (vk : Option VKind) (ns : List (String × PyVal)) : Except String PyVal :=
  match ns.lookup (match f.aliasName with | some a => a | none => "") with
  | some v =>
    .ok (match vk with
      | some k => validatorBody (casterOf litEval k) v
      | none => v)
  | none =>
    if isRequired f then .error "Field required" else .ok (pydanticDefault f)

/-- A raw namespace value produced by the underlying token parser: a plain
value or a nested namespace for a sub-command. -/
inductive NSVal where
  | val (v : PyVal)
  | sub (entries : List (String × NSVal))

/-- A dictionary value after `utils.to_dict`. -/
inductive DVal where
  | prim (v : PyVal)
  | dict (entries : List (String × DVal))

mutual
/-- Embedding of `utils.to_dict` on a single namespace attribute. -/
def toDictVal : NSVal → DVal
  | .val v => .prim v
  | .sub es => .dict (toDictList es)

/-- Embedding of `utils.to_dict`: convert a possibly nested namespace into a
nested dictionary. -/
def toDictList : List (String × NSVal) → List (String × DVal)
  | [] => []
  | (k, v) :: rest => (k, toDictVal v) :: toDictList rest
end

/-- The configuration `ArgumentParser.error` reads: program name and the
`exit_on_error` switch. -/
structure ParserCfg where
  prog : String
  exitOnError : Bool
deriving DecidableEq

/-- The usage line `print_usage` writes to the standard error stream (its
exact rendering is argparse-internal; only the fact that one usage line is
emitted first matters here). -/
def usageLine (cfg : ParserCfg) : String :=
  "usage: " ++ cfg.prog

/-- The possible outcomes of a typed parse: a constructed instance, a process
exit with a status code and the accumulated standard-error lines, or a raised
`argparse.ArgumentError` carrying its message. -/
inductive ParseOutcome (α : Type) where
  | ok (m : α)
  | exited (code : Nat) (stderr : List String)
  | raised (msg : String) (stderr : List String)

/-- Embedding of the overridden `ArgumentParser.error`: print the usage line
to the standard error stream, then either exit with the fixed status
`EXIT_ERROR = 2` (the exit message also goes to the standard error stream) or
raise an `argparse.ArgumentError` with the same formatted message. -/
def errorMethod {α : Type} (cfg : ParserCfg) (message : String) : ParseOutcome α :=
  if cfg.exitOnError then
    .exited 2 [usageLine cfg, cfg.prog ++ ": error: " ++ message ++ "\n"]
  else
    .raised (cfg.prog ++ ": error: " ++ message) [usageLine cfg]

/-- Embedding of `utils.format_error`: `str` of the validation error, taken
as the message itself. -/
def formatError (e : String) : String := e

/-- Embedding of `ArgumentParser.parse_typed_args`: the underlying token
parser either reports a parse-shape error (routed through the overridden
`error`) or yields a namespace; the namespace is converted to a dictionary
and handed to the validator-augmented model, and a validation error is
formatted and routed through `error` as well. `validate` stands for the
external pydantic construction of `self.model`. -/
def parseTypedArgs {α : Type} (cfg : ParserCfg)
    (parsed : Except String (List (String × NSVal)))
    (validate : List (String × DVal) → Except String α) : ParseOutcome α :=
  match parsed with
  | .error msg => errorMethod cfg msg
  | .ok ns =>
    match validate (toDictList ns) with
    | .ok m => .ok m
    | .error e => errorMethod cfg (formatError e)

/-- The mutable state of one `ArgumentParser` that `_commands` touches: the
lazily created sub-commands action, the ordered action-group titles, and the
sub-parsers registered so far. -/
structure ParserState where
  subcommandsCreated : Bool
  actionGroups : List String
  subparsers : List SubcommandSpec

/-- Embedding of `ArgumentParser._commands`: when no sub-commands group
exists yet, add one (argparse appends its title group last) and move the
newly appended group to the front of the action groups with
`insert(0, pop())`; otherwise leave the state untouched and reuse the
existing group. -/
def commandsCall (s : ParserState) : ParserState :=
  if s.subcommandsCreated then s
  else
    let gs := s.actionGroups ++ ["commands"]
    let gs2 :=
      match gs.getLast? with
      | some x => x :: gs.dropLast
      | none => gs
    { s with subcommandsCreated := true, actionGroups := gs2 }

/-- How `_add_field` applies one field result to the parser state: only a
nested-schema field goes through `_commands` and registers a sub-parser;
every other classification leaves the command machinery untouched. -/
def applyFieldResult (s : ParserState) (r : AddFieldResult) : ParserState :=
  match r.subcommand with
  | some sub =>
    let s1 := commandsCall s
    { s1 with subparsers := s1.subparsers ++ [sub] }
  | none => s

/-- An embedded pydantic model class: a user-written class, or a class
dynamically created by `pydantic.create_model` with a base and attached
validator names. -/
inductive ModelCls where
  | user (nm : String) (fields : List (String × FieldInfo))
  | derived (nm : String) (parent : ModelCls) (validators : List String)

/-- The `__name__` of an embedded model class. -/
def ModelCls.nameOf : ModelCls → String
  | .user n _ => n
  | .derived n _ _ => n

/-- Embedding of `utils.model_with_validators`:
`pydantic.create_model(model.__name__, __base__=model, __validators__=...)`
yields a fresh subclass with the same name, the given model as base, and the
supplied validators attached. -/
def modelWithValidators (m : ModelCls) (vs : List String) : ModelCls :=
  .derived m.nameOf m vs

/-- The in-place alias population `_add_model` performs on the original
model: `field.alias = field.alias or name` for every field. -/
def setAliases (fs : List (String × FieldInfo)) : List (String × FieldInfo) :=
  fs.map fun p =>
    (p.1, { p.2 with aliasName := some (match p.2.aliasName with | some a => a | none => p.1) })

/-- The `__name__` `as_validator` gives the validator synthesized for a
field. -/
def fieldValidatorName (n : String) : String :=
  "__pydanticV2_argparse_" ++ n

/-- The validators dictionary `_add_model` accumulates: one named validator
per field for which `_add_field` returned one (every classification except
nested commands). -/
def collectValidators (fs : List (String × FieldInfo)) : List String :=
  fs.filterMap fun p => ((addField p.2).validator).map (fun _ => fieldValidatorName p.1)

/-- Embedding of `ArgumentParser._add_model`: populate each field alias in
place on the original model, register every field, and return the
dynamically created subclass carrying the synthesized validators. The first
component is the original class object after registration (its fields now
alias-populated); the second is the model `parse_typed_args` constructs. -/
def addModel (nm : String) (fs : List (String × FieldInfo)) : ModelCls × ModelCls :=
  let fs2 := setAliases fs
  let orig := ModelCls.user nm fs2
  (orig, modelWithValidators orig (collectValidators fs2))

/-- Python `issubclass` on embedded model classes: reflexivity plus the base
chain of dynamically created classes. -/
def isSubclassM : ModelCls → ModelCls → Prop
  | .user n fsx, t => ModelCls.user n fsx = t
  | .derived n p vs, t => ModelCls.derived n p vs = t ∨ isSubclassM p t


/-! Shared lemmas. -/

/-- `is_field_a` over a present annotation is the disjunction over the
unwrapped candidate branches (the emptiness guard coincides with the empty
disjunction). -/
theorem isFieldA_eq_any (a : Ann) (ts : List Expected) :
    isFieldA (some a) ts =
      (iterCandidates a).any (fun b => ts.any fun e => singleAnnotationMatches b e) := by
  cases h : iterCandidates a with
  | nil => simp [isFieldA, h]
  | cons x xs => simp [isFieldA, h]

/-- A `--no-` spelled flag never coincides with its plain spelling. -/
theorem prepend_no_ne (r : String) : ("--no-" ++ r) ≠ ("--" ++ r) := by
  intro h
  have h2 := congrArg String.length h
  rw [String.length_append, String.length_append] at h2
  have h5 : ("--no-" : String).length = 5 := rfl
  have h3 : ("--" : String).length = 2 := rfl
  rw [h5, h3] at h2
  omega

/-! Claim C1. -/

/-- C1: for every schema field, the classifier first unwraps optional/union
layers (discarding the absence branch) and then assigns exactly one
classification by first-match precedence over the remaining branches:
NestedCommand (schema type), then LiteralSet, then Boolean, then Container
(a repeatable collection, with no branch string-like, bytes-like, an
enumeration, or a mapping), then Mapping, then Enumeration, then Scalar as
fallback: the branch chain of `_add_field` coincides with the first-match
rule evaluated as a disjunction over the unwrapped branches. -/
theorem classifier_first_match_precedence (a : Ann) :
    classify (some a) = specClassify (iterCandidates a) := by
  simp only [classify, specClassify, isFieldA_eq_any, List.any_cons, List.any_nil,
    Bool.or_false, Bool.or_assoc]

/-! Claim C2. -/

/-- C2: every synthesized validator returns a non-string input unchanged,
maps the empty string to the absence sentinel `None`, and passes any other
string to the classification-specific caster, returning the raw string
unchanged when the caster raises (never propagating the exception). -/
theorem validator_wrapper_behavior (f : FieldInfo) (k : VKind)
    (_hk : (addField f).validator = some k)
    (litEval : String → Option PyVal) (v : PyVal) :
    ((∀ s, v ≠ PyVal.strV s) → validatorBody (casterOf litEval k) v = v) ∧
    validatorBody (casterOf litEval k) (PyVal.strV "") = PyVal.pyNone ∧
    (∀ s, s ≠ "" → validatorBody (casterOf litEval k) (PyVal.strV s) =
      (match casterOf litEval k s with
       | some r => r
       | none => PyVal.strV s)) := by
  refine ⟨?_, rfl, ?_⟩
  · intro hv
    cases v <;> first | rfl | exact absurd rfl (hv _)
  · intro s hs
    simp [validatorBody, hs]

/-- The required string field of the usage example. -/
def stringField : FieldInfo :=
  { annotation := some (.cls .strC), default := none, defaultFactory := none,
    aliasName := some "string", description := some "a required string" }

/-- Witness for C2 at the string field of the usage example: the field does
receive a validator, a non-string default passes through unchanged, and the
empty string maps to the absence sentinel. -/
theorem validator_wrapper_behavior_witness :
    (addField stringField).validator = some VKind.identity ∧
    validatorBody (casterOf (fun _ => none) VKind.identity) (PyVal.intV 3) = PyVal.intV 3 ∧
    validatorBody (casterOf (fun _ => none) VKind.identity) (PyVal.strV "") = PyVal.pyNone := by
  refine ⟨rfl, ?_, ?_⟩
  · exact (validator_wrapper_behavior stringField VKind.identity rfl (fun _ => none)
      (PyVal.intV 3)).1 (fun s h => by cases h)
  · exact (validator_wrapper_behavior stringField VKind.identity rfl (fun _ => none)
      (PyVal.intV 3)).2.1

/-! Claim C3. -/

/-- A single-member-enum field, `al: SomeEnum`, with arbitrary default and
default factory. -/
def enumFlagFieldG (en m al : String) (dfl fac : Option PyVal)
    (dsc : Option String) : FieldInfo :=
  { annotation := some (.cls (.enumC en [m])), default := dfl,
    defaultFactory := fac, aliasName := some al, description := dsc }

/-- A single-member-enum field whose annotation also permits None,
`al: Optional[SomeEnum]`, with arbitrary default and default factory. -/
def enumOptFieldG (en m al : String) (dfl fac : Option PyVal)
    (dsc : Option String) : FieldInfo :=
  { annotation := some (.union [.cls (.enumC en [m]), .cls .noneT]), default := dfl,
    defaultFactory := fac, aliasName := some al, description := dsc }

/-- A single-choice string-literal field, `al: Literal[s]`, with arbitrary
default and default factory. -/
def litFlagFieldG (s al : String) (dfl fac : Option PyVal)
    (dsc : Option String) : FieldInfo :=
  { annotation := some (.lit [.strV s]), default := dfl,
    defaultFactory := fac, aliasName := some al, description := dsc }

/-- A single-choice string-literal field whose annotation also permits None,
`al: Optional[Literal[s]]`, with arbitrary default and default factory. -/
def litOptFieldG (s al : String) (dfl fac : Option PyVal)
    (dsc : Option String) : FieldInfo :=
  { annotation := some (.union [.lit [.strV s], .cls .noneT]), default := dfl,
    defaultFactory := fac, aliasName := some al, description := dsc }

/-- An optional single-choice literal field whose annotation also permits
None, `al: Optional[Literal[s]] = d`. -/
def litInvFlagField (s al : String) (d : PyVal) (dsc : Option String) : FieldInfo :=
  litOptFieldG s al (some d) none dsc

/-- The concrete field `mode: Optional[Literal["x"]] = "x"`. -/
def litInvField : FieldInfo := litInvFlagField "x" "mode" (.strV "x") none

/-- C3 counterexample: for the single-choice optional literal field
`mode: Optional[Literal["x"]] = "x"` the synthesized primary flag stores the
absence sentinel, so supplying the bare flag yields None rather than the
single choice "x", contradicting the claim at this input. -/
theorem literal_flag_const_counterexample :
    constructField (fun _ => none) litInvField (addField litInvField).validator
        (evalFlags (addField litInvField).specs ["--mode"]) = Except.ok PyVal.pyNone ∧
    Except.ok PyVal.pyNone ≠ (Except.ok (PyVal.strV "x") : Except String PyVal) := by
  exact ⟨rfl, by simp⟩

/-- The choice list of a single string-choice literal annotation. -/
theorem literalChoices_singleStr (s : String) :
    literalChoices (Ann.lit [PyVal.strV s]) = [ChoiceItem.val (PyVal.strV s)] := rfl

/-- The choice list of an optional literal annotation: the None branch is
dropped and the nested literal expanded. -/
theorem literalChoices_unionLit (vs : List PyVal) :
    literalChoices (Ann.union [Ann.lit vs, Ann.cls PyClass.noneT]) =
      vs.map ChoiceItem.val := by
  simp [literalChoices, pyGetArgs, expandLiteral, isNoneTypeItem]

/-- The candidate branches of an optional literal annotation. -/
theorem iterCandidates_unionLit (vs : List PyVal) :
    iterCandidates (Ann.union [Ann.lit vs, Ann.cls PyClass.noneT]) = [Ann.lit vs] := rfl

/-- C3 amended: for every enumeration or literal field whose choice set has
exactly one member and which is optional, omitting the flag yields the
declared default (the factory value when a default factory is declared) and
supplying the bare flag yields that single choice, except in two literal
cases where the bare flag yields the absence sentinel None instead: when the
uncalled default is a non-None value and the annotation permits None (the
primary flag stores None as its constant), and when the single literal choice
is the empty string (the stored constant is mapped to None by the
empty-string rule of the validator). -/
theorem single_choice_flag_synthesis_amended :
    (∀ (en m al : String) (dfl fac : Option PyVal) (dsc : Option String)
        (litEval : String → Option PyVal),
      isRequired (enumFlagFieldG en m al dfl fac dsc) = false →
      constructField litEval (enumFlagFieldG en m al dfl fac dsc)
          (addField (enumFlagFieldG en m al dfl fac dsc)).validator
          (evalFlags (addField (enumFlagFieldG en m al dfl fac dsc)).specs []) =
        Except.ok (pydanticDefault (enumFlagFieldG en m al dfl fac dsc)) ∧
      constructField litEval (enumFlagFieldG en m al dfl fac dsc)
          (addField (enumFlagFieldG en m al dfl fac dsc)).validator
          (evalFlags (addField (enumFlagFieldG en m al dfl fac dsc)).specs
            [argName (enumFlagFieldG en m al dfl fac dsc) false]) =
        Except.ok (PyVal.enumMember en m)) ∧
    (∀ (en m al : String) (dfl fac : Option PyVal) (dsc : Option String)
        (litEval : String → Option PyVal),
      isRequired (enumOptFieldG en m al dfl fac dsc) = false →
      constructField litEval (enumOptFieldG en m al dfl fac dsc)
          (addField (enumOptFieldG en m al dfl fac dsc)).validator
          (evalFlags (addField (enumOptFieldG en m al dfl fac dsc)).specs []) =
        Except.ok (pydanticDefault (enumOptFieldG en m al dfl fac dsc)) ∧
      constructField litEval (enumOptFieldG en m al dfl fac dsc)
          (addField (enumOptFieldG en m al dfl fac dsc)).validator
          (evalFlags (addField (enumOptFieldG en m al dfl fac dsc)).specs
            [argName (enumOptFieldG en m al dfl fac dsc) false]) =
        Except.ok (PyVal.enumMember en m)) ∧
    (∀ (s al : String) (dfl fac : Option PyVal) (dsc : Option String)
        (litEval : String → Option PyVal),
      isRequired (litFlagFieldG s al dfl fac dsc) = false →
      constructField litEval (litFlagFieldG s al dfl fac dsc)
          (addField (litFlagFieldG s al dfl fac dsc)).validator
          (evalFlags (addField (litFlagFieldG s al dfl fac dsc)).specs []) =
        Except.ok (pydanticDefault (litFlagFieldG s al dfl fac dsc)) ∧
      constructField litEval (litFlagFieldG s al dfl fac dsc)
          (addField (litFlagFieldG s al dfl fac dsc)).validator
          (evalFlags (addField (litFlagFieldG s al dfl fac dsc)).specs
            [argName (litFlagFieldG s al dfl fac dsc) false]) =
        Except.ok (if s = "" then PyVal.pyNone else PyVal.strV s)) ∧
    (∀ (s al : String) (dfl fac : Option PyVal) (dsc : Option String)
        (litEval : String → Option PyVal),
      isRequired (litOptFieldG s al dfl fac dsc) = false →
      constructField litEval (litOptFieldG s al dfl fac dsc)
          (addField (litOptFieldG s al dfl fac dsc)).validator
          (evalFlags (addField (litOptFieldG s al dfl fac dsc)).specs []) =
        Except.ok (pydanticDefault (litOptFieldG s al dfl fac dsc)) ∧
      constructField litEval (litOptFieldG s al dfl fac dsc)
          (addField (litOptFieldG s al dfl fac dsc)).validator
          (evalFlags (addField (litOptFieldG s al dfl fac dsc)).specs
            [argName (litOptFieldG s al dfl fac dsc) false]) =
        Except.ok
          (if getDefaultNoCall (litOptFieldG s al dfl fac dsc) = PyVal.pyNone then
            (if s = "" then PyVal.pyNone else PyVal.strV s)
           else PyVal.pyNone)) := by
  refine ⟨?_, ?_, ?_, ?_⟩
  · intro en m al dfl fac dsc litEval hopt
    simp only [enumFlagFieldG] at hopt ⊢
    refine ⟨?_, ?_⟩
    · simp [constructField, evalFlags, hopt]
    · simp [addField, firstCandidate, iterCandidates, iterCandidatesList, isNoneType,
        addArgumentBase, addArgument, argName, constructField, evalFlags, stepTok,
        tokenHit, upsert, validatorBody, casterOf, isFieldA, singleAnnotationMatches,
        pySubclassB, allowsNone, List.lookup, List.findSome?, choiceVal, hopt]
  · intro en m al dfl fac dsc litEval hopt
    have hne := (prepend_no_ne (underscoreToHyphen al)).symm
    simp only [enumOptFieldG] at hopt ⊢
    refine ⟨?_, ?_⟩
    · simp [constructField, evalFlags, hopt]
    · simp [addField, firstCandidate, iterCandidates, iterCandidatesList, isNoneType,
        addArgumentBase, addArgument, argName, constructField, evalFlags, stepTok,
        tokenHit, upsert, validatorBody, casterOf, isFieldA, singleAnnotationMatches,
        pySubclassB, allowsNone, List.lookup, List.findSome?, choiceVal, hopt, hne]
  · intro s al dfl fac dsc litEval hopt
    simp only [litFlagFieldG] at hopt ⊢
    refine ⟨?_, ?_⟩
    · simp [constructField, evalFlags, hopt]
    · by_cases hs : s = ""
      · subst hs
        simp [addField, literalChoices_singleStr, iterCandidates, iterCandidatesList,
          addArgumentBase, addArgument, argName, constructField, evalFlags, stepTok,
          tokenHit, upsert, validatorBody, casterOf, isFieldA, singleAnnotationMatches,
          pySubclassB, allowsNone, List.lookup, List.findSome?, choiceVal, choiceStr,
          pyValStr, lookupLastStr, hopt]
      · simp [addField, literalChoices_singleStr, iterCandidates, iterCandidatesList,
          addArgumentBase, addArgument, argName, constructField, evalFlags, stepTok,
          tokenHit, upsert, validatorBody, casterOf, isFieldA, singleAnnotationMatches,
          pySubclassB, allowsNone, List.lookup, List.findSome?, choiceVal, choiceStr,
          pyValStr, lookupLastStr, hopt, hs]
  · intro s al dfl fac dsc litEval hopt
    have hne := (prepend_no_ne (underscoreToHyphen al)).symm
    simp only [litOptFieldG] at hopt ⊢
    refine ⟨?_, ?_⟩
    · simp [constructField, evalFlags, hopt]
    · cases fac with
      | some v =>
        by_cases hs : s = "" <;>
          simp [addField, literalChoices_unionLit, iterCandidates_unionLit, isNoneType,
            addArgumentBase, addArgument, argName, constructField, evalFlags, stepTok,
            tokenHit, upsert, validatorBody, casterOf, isFieldA, singleAnnotationMatches,
            pySubclassB, allowsNone, isRequired, getDefaultNoCall, List.lookup,
            List.findSome?, choiceVal, choiceStr, pyValStr, lookupLastStr, hne, hs]
      | none =>
        cases dfl with
        | none => simp [isRequired] at hopt
        | some d =>
          cases d <;> by_cases hs : s = "" <;>
            simp [addField, literalChoices_unionLit, iterCandidates_unionLit, isNoneType,
              addArgumentBase, addArgument, argName, constructField, evalFlags, stepTok,
              tokenHit, upsert, validatorBody, casterOf, isFieldA, singleAnnotationMatches,
              pySubclassB, allowsNone, isRequired, getDefaultNoCall, List.lookup,
              List.findSome?, choiceVal, choiceStr, pyValStr, lookupLastStr, hne, hs]

/-- Witness for C3 amended at the fields `en: TestEnum = TestEnum.A` and
`en: Optional[TestEnum] = None` (single member A), the literal fields
`level: Literal["high"] = "low"` and `empty: Literal[""] = ""`, and the field
`mode: Optional[Literal["x"]] = "x"` with its omission case. -/
theorem single_choice_flag_synthesis_amended_witness :
    constructField (fun _ => none)
        (enumFlagFieldG "TestEnum" "A" "en" (some (PyVal.enumMember "TestEnum" "A")) none none)
        (addField (enumFlagFieldG "TestEnum" "A" "en" (some (PyVal.enumMember "TestEnum" "A")) none none)).validator
        (evalFlags (addField (enumFlagFieldG "TestEnum" "A" "en" (some (PyVal.enumMember "TestEnum" "A")) none none)).specs
          ["--en"]) = Except.ok (PyVal.enumMember "TestEnum" "A") ∧
    constructField (fun _ => none)
        (enumOptFieldG "TestEnum" "A" "en" (some PyVal.pyNone) none none)
        (addField (enumOptFieldG "TestEnum" "A" "en" (some PyVal.pyNone) none none)).validator
        (evalFlags (addField (enumOptFieldG "TestEnum" "A" "en" (some PyVal.pyNone) none none)).specs
          ["--en"]) = Except.ok (PyVal.enumMember "TestEnum" "A") ∧
    constructField (fun _ => none)
        (litFlagFieldG "high" "level" (some (PyVal.strV "low")) none none)
        (addField (litFlagFieldG "high" "level" (some (PyVal.strV "low")) none none)).validator
        (evalFlags (addField (litFlagFieldG "high" "level" (some (PyVal.strV "low")) none none)).specs
          ["--level"]) = Except.ok (PyVal.strV "high") ∧
    constructField (fun _ => none)
        (litFlagFieldG "" "empty" (some (PyVal.strV "")) none none)
        (addField (litFlagFieldG "" "empty" (some (PyVal.strV "")) none none)).validator
        (evalFlags (addField (litFlagFieldG "" "empty" (some (PyVal.strV "")) none none)).specs
          ["--empty"]) = Except.ok PyVal.pyNone ∧
    constructField (fun _ => none)
        (litOptFieldG "x" "mode" (some (PyVal.strV "x")) none none)
        (addField (litOptFieldG "x" "mode" (some (PyVal.strV "x")) none none)).validator
        (evalFlags (addField (litOptFieldG "x" "mode" (some (PyVal.strV "x")) none none)).specs
          ["--mode"]) = Except.ok PyVal.pyNone ∧
    constructField (fun _ => none)
        (litOptFieldG "x" "mode" (some (PyVal.strV "x")) none none)
        (addField (litOptFieldG "x" "mode" (some (PyVal.strV "x")) none none)).validator
        (evalFlags (addField (litOptFieldG "x" "mode" (some (PyVal.strV "x")) none none)).specs
          []) = Except.ok (PyVal.strV "x") := by
  refine ⟨?_, ?_, ?_, ?_, ?_, ?_⟩
  · exact (single_choice_flag_synthesis_amended.1 "TestEnum" "A" "en"
      (some (PyVal.enumMember "TestEnum" "A")) none none (fun _ => none) rfl).2
  · exact (single_choice_flag_synthesis_amended.2.1 "TestEnum" "A" "en"
      (some PyVal.pyNone) none none (fun _ => none) rfl).2
  · have h := (single_choice_flag_synthesis_amended.2.2.1 "high" "level"
      (some (PyVal.strV "low")) none none (fun _ => none) rfl).2
    rw [if_neg (by decide)] at h
    exact h
  · have h := (single_choice_flag_synthesis_amended.2.2.1 "" "empty"
      (some (PyVal.strV "")) none none (fun _ => none) rfl).2
    rw [if_pos rfl] at h
    exact h
  · have h := (single_choice_flag_synthesis_amended.2.2.2 "x" "mode"
      (some (PyVal.strV "x")) none none (fun _ => none) rfl).2
    rw [if_neg (by decide)] at h
    exact h
  · exact (single_choice_flag_synthesis_amended.2.2.2 "x" "mode"
      (some (PyVal.strV "x")) none none (fun _ => none) rfl).1

/-! Claim C4. -/

/-- A boolean field whose annotation also permits None, `al: Optional[bool]`,
with arbitrary default and default factory. -/
def boolOptNFieldG (al : String) (dfl fac : Option PyVal) (dsc : Option String) :
    FieldInfo :=
  { annotation := some (.union [.cls .boolC, .cls .noneT]), default := dfl,
    defaultFactory := fac, aliasName := some al, description := dsc }

/-- An optional boolean field whose annotation also permits None,
`al: Optional[bool] = d`. -/
def boolOptNField (al : String) (d : PyVal) (dsc : Option String) : FieldInfo :=
  boolOptNFieldG al (some d) none dsc

/-- An optional single-member-enum field whose annotation also permits None,
`al: Optional[SomeEnum] = d` with the enum holding exactly one member. -/
def enumOptNField (en m al : String) (d : PyVal) (dsc : Option String) : FieldInfo :=
  enumOptFieldG en m al (some d) none dsc

/-- An optional enum field with at least two members whose annotation also
permits None. -/
def enumManyOptNField (en m1 m2 : String) (ms : List String) (al : String)
    (d : PyVal) (dsc : Option String) : FieldInfo :=
  { annotation := some (.union [.cls (.enumC en (m1 :: m2 :: ms)), .cls .noneT]),
    default := some d, defaultFactory := none, aliasName := some al, description := dsc }

/-- An optional literal field with at least two choices whose annotation also
permits None. -/
def litManyOptNField (v1 v2 : PyVal) (vs : List PyVal) (al : String) (d : PyVal)
    (dsc : Option String) : FieldInfo :=
  { annotation := some (.union [.lit (v1 :: v2 :: vs), .cls .noneT]),
    default := some d, defaultFactory := none, aliasName := some al, description := dsc }

/-- A list that starts with two elements never has length one. -/
theorem length_two_plus_ne_one {α : Type} (x y : α) (l : List α) :
    ((x :: y :: l).length == 1) = false := rfl

/-- The concrete field `third_flag: Optional[bool] = True`. -/
def boolOptTrueField : FieldInfo := boolOptNField "third_flag" (.boolV true) none

/-- C4 counterexample: the optional boolean field
`third_flag: Optional[bool] = True` is optional, has a present default and
its type permits the absence sentinel, yet `_add_field` registers exactly one
argument (the single inverted `--no-third-flag` store-false form), not a
second complementary argument in addition to a primary one. -/
theorem boolean_inversion_counterexample :
    (addField boolOptTrueField).specs.map ArgSpec.flagName = ["--no-third-flag"] ∧
    (addField boolOptTrueField).specs.length = 1 := by
  exact ⟨rfl, rfl⟩

/-- C4 amended: a second complementary argument is registered only for
single-choice LiteralSet and single-member Enumeration fields that are
optional and whose annotation permits None, and it is added regardless of
whether the default is a present value; a Boolean field always registers
exactly one argument - the paired `--x`/`--no-x` action when required, the
inverted `--no-x` store-false form when optional with a truthy uncalled
default, and the plain `--x` store-true form when optional with a falsy
uncalled default; enumeration and literal fields with more than one choice
never receive a second argument, even when optional with a present default
and a None-permitting annotation. -/
theorem inversion_second_argument_amended :
    (∀ (al : String) (dfl fac : Option PyVal) (dsc : Option String),
      (addField (boolOptNFieldG al dfl fac dsc)).specs.length = 1) ∧
    (∀ (al : String) (dsc : Option String),
      (addField (boolOptNFieldG al none none dsc)).specs.map ArgSpec.action =
        [ActionKind.booleanOptionalAction]) ∧
    (∀ (al : String) (dfl fac : Option PyVal) (dsc : Option String),
      isRequired (boolOptNFieldG al dfl fac dsc) = false →
      pyTruthy (getDefaultNoCall (boolOptNFieldG al dfl fac dsc)) = true →
      (addField (boolOptNFieldG al dfl fac dsc)).specs.map ArgSpec.action =
        [ActionKind.storeFalseAction] ∧
      (addField (boolOptNFieldG al dfl fac dsc)).specs.map ArgSpec.flagName =
        [argName (boolOptNFieldG al dfl fac dsc) true]) ∧
    (∀ (al : String) (dfl fac : Option PyVal) (dsc : Option String),
      isRequired (boolOptNFieldG al dfl fac dsc) = false →
      pyTruthy (getDefaultNoCall (boolOptNFieldG al dfl fac dsc)) = false →
      (addField (boolOptNFieldG al dfl fac dsc)).specs.map ArgSpec.action =
        [ActionKind.storeTrueAction] ∧
      (addField (boolOptNFieldG al dfl fac dsc)).specs.map ArgSpec.flagName =
        [argName (boolOptNFieldG al dfl fac dsc) false]) ∧
    (∀ (en m al : String) (d : PyVal) (dsc : Option String),
      (addField (enumOptNField en m al d dsc)).specs.map ArgSpec.flagName =
        [argName (enumOptNField en m al d dsc) true,
         argName (enumOptNField en m al d dsc) false] ∧
      (addField (enumOptNField en m al d dsc)).specs.map
          (fun sp => sp.const.map choiceVal) =
        [some PyVal.pyNone, some (PyVal.enumMember en m)]) ∧
    (∀ (s al : String) (d : PyVal) (dsc : Option String),
      (addField (litInvFlagField s al d dsc)).specs.map ArgSpec.flagName =
        [argName (litInvFlagField s al d dsc) true,
         argName (litInvFlagField s al d dsc) false] ∧
      ((addField (litInvFlagField s al d dsc)).specs.head?).map
          (fun sp => sp.const.map choiceVal) = some (some PyVal.pyNone)) ∧
    (∀ (en m1 m2 : String) (ms : List String) (al : String) (d : PyVal)
        (dsc : Option String),
      (addField (enumManyOptNField en m1 m2 ms al d dsc)).specs.length = 1) ∧
    (∀ (v1 v2 : PyVal) (vs : List PyVal) (al : String) (d : PyVal)
        (dsc : Option String),
      (addField (litManyOptNField v1 v2 vs al d dsc)).specs.length = 1) := by
  refine ⟨?_, ?_, ?_, ?_, ?_, ?_, ?_, ?_⟩
  · intro al dfl fac dsc
    simp [boolOptNFieldG, addField, iterCandidates, iterCandidatesList, isNoneType,
      isFieldA, singleAnnotationMatches, pySubclassB]
  · intro al dsc
    simp [boolOptNFieldG, addField, iterCandidates, iterCandidatesList, isNoneType,
      addArgumentBase, addArgument, isFieldA, singleAnnotationMatches, pySubclassB,
      isRequired]
  · intro al dfl fac dsc hopt htr
    simp only [boolOptNFieldG] at hopt htr ⊢
    refine ⟨?_, ?_⟩ <;>
      simp [addField, iterCandidates, iterCandidatesList, isNoneType, addArgumentBase,
        addArgument, argName, isFieldA, singleAnnotationMatches, pySubclassB,
        allowsNone, hopt, htr]
  · intro al dfl fac dsc hopt hfa
    simp only [boolOptNFieldG] at hopt hfa ⊢
    refine ⟨?_, ?_⟩ <;>
      simp [addField, iterCandidates, iterCandidatesList, isNoneType, addArgumentBase,
        addArgument, argName, isFieldA, singleAnnotationMatches, pySubclassB,
        allowsNone, hopt, hfa]
  · intro en m al d dsc
    refine ⟨?_, ?_⟩ <;>
      simp [enumOptNField, enumOptFieldG, addField, firstCandidate, iterCandidates,
        iterCandidatesList, isNoneType, addArgumentBase, addArgument, argName,
        isFieldA, singleAnnotationMatches, pySubclassB, allowsNone, isRequired,
        choiceVal]
  · intro s al d dsc
    refine ⟨?_, ?_⟩ <;>
      simp [litInvFlagField, litOptFieldG, addField, literalChoices_unionLit,
        iterCandidates_unionLit, isNoneType, addArgumentBase, addArgument, argName,
        isFieldA, singleAnnotationMatches, pySubclassB, allowsNone, isRequired,
        choiceVal]
  · intro en m1 m2 ms al d dsc
    simp [enumManyOptNField, addField, firstCandidate, iterCandidates,
      iterCandidatesList, isNoneType, isFieldA, singleAnnotationMatches, pySubclassB,
      allowsNone, isRequired, length_two_plus_ne_one]
  · intro v1 v2 vs al d dsc
    simp [litManyOptNField, addField, literalChoices_unionLit, iterCandidates_unionLit,
      isNoneType, isFieldA, singleAnnotationMatches, pySubclassB, allowsNone,
      isRequired, length_two_plus_ne_one]

/-- Witness for C4 amended at the concrete fields `flag: Optional[bool]`
(required), `third_flag: Optional[bool] = True`,
`second_flag: Optional[bool] = False`, `en: Optional[TestEnum] = None`, an
optional three-member enum and an optional three-choice literal, both with a
present default and a None-permitting annotation. -/
theorem inversion_second_argument_amended_witness :
    (addField (boolOptNFieldG "flag" none none none)).specs.map ArgSpec.action =
      [ActionKind.booleanOptionalAction] ∧
    (addField (boolOptNField "third_flag" (PyVal.boolV true) none)).specs.map
        ArgSpec.action = [ActionKind.storeFalseAction] ∧
    (addField (boolOptNField "second_flag" (PyVal.boolV false) none)).specs.map
        ArgSpec.action = [ActionKind.storeTrueAction] ∧
    (addField (enumOptNField "TestEnum" "A" "en" PyVal.pyNone none)).specs.map
        (fun sp => sp.const.map choiceVal) =
      [some PyVal.pyNone, some (PyVal.enumMember "TestEnum" "A")] ∧
    (addField (enumManyOptNField "TestEnum" "A" "B" ["C"] "en"
        (PyVal.enumMember "TestEnum" "A") none)).specs.length = 1 ∧
    (addField (litManyOptNField (PyVal.strV "red") (PyVal.strV "green")
        [PyVal.strV "blue"] "color" (PyVal.strV "red") none)).specs.length = 1 := by
  refine ⟨?_, ?_, ?_, ?_, ?_, ?_⟩
  · exact inversion_second_argument_amended.2.1 "flag" none
  · exact (inversion_second_argument_amended.2.2.1 "third_flag"
      (some (PyVal.boolV true)) none none rfl rfl).1
  · exact (inversion_second_argument_amended.2.2.2.1 "second_flag"
      (some (PyVal.boolV false)) none none rfl rfl).1
  · exact (inversion_second_argument_amended.2.2.2.2.1 "TestEnum" "A" "en"
      PyVal.pyNone none).2
  · exact inversion_second_argument_amended.2.2.2.2.2.2.1 "TestEnum" "A" "B" ["C"]
      "en" (PyVal.enumMember "TestEnum" "A") none
  · exact inversion_second_argument_amended.2.2.2.2.2.2.2 (PyVal.strV "red")
      (PyVal.strV "green") [PyVal.strV "blue"] "color" (PyVal.strV "red") none

/-! Claim C5. -/

/-- C5 counterexample: the required field `string: str` is placed in the
required display group, yet the underlying token-parser action it registers
does not enforce presence (the `required` keyword is popped by the overridden
`add_argument` and never forwarded), contradicting the half of the claim that
placement determines token-parser enforcement. -/
theorem required_enforcement_counterexample :
    (addField stringField).specs.map ArgSpec.grp = [GroupKind.required] ∧
    (addField stringField).specs.map ArgSpec.enforcedRequired = [false] := by
  exact ⟨rfl, rfl⟩

/-- C5 amended: a field is placed in the required-arguments group iff it has
no default and no default factory, and this placement determines display
grouping only: the `required` keyword is stripped before reaching the
underlying token parser, whose action never enforces presence (missing
required fields are instead reported by schema validation). -/
theorem required_grouping_amended (f : FieldInfo) (action : ActionKind)
    (mv : Option String) (nmv inv : Bool) (constK : Option ChoiceItem)
    (nargs : Option Nargs) :
    ((addArgumentBase f action mv nmv inv constK nargs).grp = GroupKind.required ↔
      (f.default = none ∧ f.defaultFactory = none)) ∧
    (addArgumentBase f action mv nmv inv constK nargs).enforcedRequired = false := by
  obtain ⟨ann, d, df, al, ds⟩ := f
  refine ⟨?_, rfl⟩
  cases d <;> cases df <;> simp [addArgumentBase, addArgument, isRequired]

/-! Claim C6. -/

/-- C6: on every parse or validation failure, with exit-on-error enabled the
parser emits a usage line and an error line on the standard error stream and
terminates with the fixed status 2; with it disabled the same failure raises
a structured error carrying the formatted message; in both configurations no
typed instance is returned. -/
theorem error_path_no_partial_instance {α : Type} (cfg : ParserCfg)
    (parsed : Except String (List (String × NSVal)))
    (validate : List (String × DVal) → Except String α)
    (h : ∀ ns, parsed = Except.ok ns → ∃ e, validate (toDictList ns) = Except.error e) :
    (∀ m, parseTypedArgs cfg parsed validate ≠ ParseOutcome.ok m) ∧
    (cfg.exitOnError = true → ∃ e, parseTypedArgs cfg parsed validate =
      ParseOutcome.exited 2 [usageLine cfg, cfg.prog ++ ": error: " ++ e ++ "\n"]) ∧
    (cfg.exitOnError = false → ∃ e, parseTypedArgs cfg parsed validate =
      ParseOutcome.raised (cfg.prog ++ ": error: " ++ e) [usageLine cfg]) := by
  obtain ⟨p, eoe⟩ := cfg
  cases parsed with
  | error msg =>
    refine ⟨fun m => ?_, fun he => ⟨msg, ?_⟩, fun he => ⟨msg, ?_⟩⟩
    · cases eoe <;> simp [parseTypedArgs, errorMethod]
    · simp_all [parseTypedArgs, errorMethod]
    · simp_all [parseTypedArgs, errorMethod]
  | ok ns =>
    obtain ⟨e, he⟩ := h ns rfl
    refine ⟨fun m => ?_, fun hx => ⟨e, ?_⟩, fun hx => ⟨e, ?_⟩⟩
    · cases eoe <;> simp [parseTypedArgs, errorMethod, he, formatError]
    · simp_all [parseTypedArgs, errorMethod, formatError]
    · simp_all [parseTypedArgs, errorMethod, formatError]

/-- Witness for C6 at a concrete failing validation with exit-on-error
enabled: the outcome is a status-2 exit with the usage and error lines, and
not an instance. -/
theorem error_path_no_partial_instance_witness :
    parseTypedArgs (ParserCfg.mk "prog" true) (Except.ok [])
        (fun _ => (Except.error "boom" : Except String PyVal)) ≠
      ParseOutcome.ok PyVal.pyNone ∧
    parseTypedArgs (ParserCfg.mk "prog" true) (Except.ok [])
        (fun _ => (Except.error "boom" : Except String PyVal)) =
      ParseOutcome.exited 2 ["usage: prog", "prog: error: boom\n"] := by
  refine ⟨(error_path_no_partial_instance (ParserCfg.mk "prog" true) (Except.ok [])
    (fun _ => (Except.error "boom" : Except String PyVal)) ?_).1 PyVal.pyNone, rfl⟩
  exact fun ns hns => ⟨"boom", by cases hns; rfl⟩

/-! Claim C7. -/

/-- A field whose annotation unwraps to zero concrete branches. -/
def mysteryField : FieldInfo :=
  { annotation := some (.union [.cls .noneT]), default := none, defaultFactory := none,
    aliasName := some "mystery", description := none }

/-- C7 counterexample: a field whose annotation has zero concrete branches
after unwrapping is not rejected at schema-registration time: it falls
through to the Scalar fallback and is registered as an ordinary value-taking
argument, so no schema-authoring failure occurs at registration. -/
theorem zero_branch_scalar_counterexample :
    iterCandidates (Ann.union [Ann.cls PyClass.noneT]) = [] ∧
    classify mysteryField.annotation = Classification.scalar ∧
    (addField mysteryField).specs.map ArgSpec.action = [ActionKind.storeAction] ∧
    (addField mysteryField).specs.map ArgSpec.metavar = [some "MYSTERY"] ∧
    (addField mysteryField).subcommand = none := by
  exact ⟨rfl, rfl, rfl, rfl, rfl⟩

/-- C7 amended: a field with no annotation, or whose annotation unwraps to
zero concrete branches, is never rejected: every classification test is
false, the field is classified Scalar, and registration synthesizes one
ordinary value-taking store argument with the identity validator and no
sub-command. -/
theorem zero_branch_fallback_amended (f : FieldInfo)
    (hz : f.annotation = none ∨ ∃ a, f.annotation = some a ∧ iterCandidates a = []) :
    classify f.annotation = Classification.scalar ∧
    (addField f).specs.map ArgSpec.action = [ActionKind.storeAction] ∧
    ((addField f).validator).isSome = true ∧
    (addField f).subcommand = none := by
  have hfalse : ∀ ts, isFieldA f.annotation ts = false := by
    intro ts
    rcases hz with h0 | ⟨a, ha, hemp⟩
    · simp [isFieldA, h0]
    · simp [isFieldA, ha, hemp]
  refine ⟨?_, ?_, ?_, ?_⟩ <;>
    simp [classify, addField, hfalse, addArgumentBase, addArgument]

/-- Witness for C7 amended at the zero-branch field above. -/
theorem zero_branch_fallback_amended_witness :
    classify mysteryField.annotation = Classification.scalar ∧
    (addField mysteryField).specs.map ArgSpec.action = [ActionKind.storeAction] := by
  have h := zero_branch_fallback_amended mysteryField
    (Or.inr ⟨Ann.union [Ann.cls PyClass.noneT], rfl, rfl⟩)
  exact ⟨h.1, h.2.1⟩

/-! Claim C8. -/

/-- Folding a character list back into a string is the identity it came
from. -/
theorem string_mk_data (s : String) : String.mk s.data = s := rfl

/-- The character data of the long-flag marker. -/
theorem dashdash_data : ("--" : String).data = ['-', '-'] := rfl

/-- A required boolean field `al: bool`. -/
def reqBoolField (al : String) (dsc : Option String) : FieldInfo :=
  { annotation := some (.cls .boolC), default := none, defaultFactory := none,
    aliasName := some al, description := dsc }

/-- An optional boolean field with default true, `al: bool = True`. -/
def optTrueBoolField (al : String) (dsc : Option String) : FieldInfo :=
  { annotation := some (.cls .boolC), default := some (.boolV true),
    defaultFactory := none, aliasName := some al, description := dsc }

/-- C8: a required boolean field is registered as the paired
`--flag`/`--no-flag` action; omitting both forms leaves the field missing so
construction reports the required-field error, while `--flag` yields true and
`--no-flag` yields false; an optional boolean with default true is registered
as the single `--no-flag` store-false form, and supplying it yields false.
(The paired action class comes from the repository actions module, absent
from the sources, and is modelled from the spec.) -/
theorem required_boolean_pair_behavior (al : String) (dsc : Option String)
    (litEval : String → Option PyVal) :
    (addField (reqBoolField al dsc)).specs.map ArgSpec.action =
      [ActionKind.booleanOptionalAction] ∧
    constructField litEval (reqBoolField al dsc) (addField (reqBoolField al dsc)).validator
      (evalFlags (addField (reqBoolField al dsc)).specs []) =
        Except.error "Field required" ∧
    constructField litEval (reqBoolField al dsc) (addField (reqBoolField al dsc)).validator
      (evalFlags (addField (reqBoolField al dsc)).specs
        [argName (reqBoolField al dsc) false]) = Except.ok (PyVal.boolV true) ∧
    constructField litEval (reqBoolField al dsc) (addField (reqBoolField al dsc)).validator
      (evalFlags (addField (reqBoolField al dsc)).specs
        [argName (reqBoolField al dsc) true]) = Except.ok (PyVal.boolV false) ∧
    (addField (optTrueBoolField al dsc)).specs.map ArgSpec.action =
      [ActionKind.storeFalseAction] ∧
    constructField litEval (optTrueBoolField al dsc)
      (addField (optTrueBoolField al dsc)).validator
      (evalFlags (addField (optTrueBoolField al dsc)).specs
        [argName (optTrueBoolField al dsc) true]) = Except.ok (PyVal.boolV false) := by
  have hne := prepend_no_ne (underscoreToHyphen al)
  refine ⟨?_, rfl, ?_, ?_, ?_, ?_⟩ <;>
    simp [reqBoolField, optTrueBoolField, addField, iterCandidates, iterCandidatesList,
      isFieldA, singleAnnotationMatches, pySubclassB, isRequired, getDefaultNoCall,
      pyTruthy, allowsNone, addArgumentBase, addArgument, argName, constructField,
      evalFlags, stepTok, tokenHit, invertedFlag, upsert, validatorBody, casterOf,
      List.lookup, List.findSome?, string_mk_data, dashdash_data, hne]

/-- Witness for C8 at the required field `flag: bool` and the optional field
`third_flag: bool = True` of the usage example. -/
theorem required_boolean_pair_behavior_witness :
    constructField (fun _ => none) (reqBoolField "flag" none)
      (addField (reqBoolField "flag" none)).validator
      (evalFlags (addField (reqBoolField "flag" none)).specs []) =
        Except.error "Field required" ∧
    constructField (fun _ => none) (reqBoolField "flag" none)
      (addField (reqBoolField "flag" none)).validator
      (evalFlags (addField (reqBoolField "flag" none)).specs ["--flag"]) =
        Except.ok (PyVal.boolV true) ∧
    constructField (fun _ => none) (reqBoolField "flag" none)
      (addField (reqBoolField "flag" none)).validator
      (evalFlags (addField (reqBoolField "flag" none)).specs ["--no-flag"]) =
        Except.ok (PyVal.boolV false) ∧
    constructField (fun _ => none) (optTrueBoolField "third_flag" none)
      (addField (optTrueBoolField "third_flag" none)).validator
      (evalFlags (addField (optTrueBoolField "third_flag" none)).specs
        ["--no-third-flag"]) = Except.ok (PyVal.boolV false) := by
  have h := required_boolean_pair_behavior "flag" none (fun _ => none)
  have h2 := required_boolean_pair_behavior "third_flag" none (fun _ => none)
  exact ⟨h.2.1, h.2.2.1, h.2.2.2.1, h2.2.2.2.2.2⟩

/-! Claim C9. -/

/-- The command field `action: Sub` of the nested-schema example. -/
def commandField : FieldInfo :=
  { annotation := some (.cls (.modelC "Sub")), default := none, defaultFactory := none,
    aliasName := some "action", description := some "sub command" }

/-- The action-group state of a freshly constructed parser. -/
def freshParserState : ParserState :=
  { subcommandsCreated := false,
    actionGroups := ["required arguments", "optional arguments", "help"],
    subparsers := [] }

/-- C9: the commands group is created lazily at most once: on the first
nested-schema field it is created and moved to the front of the action groups
for help output, and a second call leaves the state unchanged (idempotence);
non-command fields never touch the command machinery; and the sub-parser of a
nested-schema field is created with its own error exit disabled so that
errors bubble to the top-level parser. -/
theorem commands_group_lazy_once (s : ParserState) (f g : FieldInfo)
    (hns : s.subcommandsCreated = false)
    (hcmd : isFieldA f.annotation [Expected.pyc .baseModel] = true)
    (hng : (addField g).subcommand = none) :
    commandsCall (commandsCall s) = commandsCall s ∧
    (commandsCall s).actionGroups.head? = some "commands" ∧
    (commandsCall s).subcommandsCreated = true ∧
    ((addField f).subcommand.map SubcommandSpec.exitOnError) = some false ∧
    applyFieldResult s (addField g) = s := by
  refine ⟨?_, ?_, ?_, ?_, ?_⟩
  · simp [commandsCall, hns]
  · simp [commandsCall, hns]
  · simp [commandsCall, hns]
  · simp [addField, hcmd]
  · simp [applyFieldResult, hng]

/-- Witness for C9 at a fresh parser state, the command field `action: Sub`
and the non-command field `string: str`. -/
theorem commands_group_lazy_once_witness :
    commandsCall (commandsCall freshParserState) = commandsCall freshParserState ∧
    (commandsCall freshParserState).actionGroups.head? = some "commands" ∧
    ((addField commandField).subcommand.map SubcommandSpec.exitOnError) = some false := by
  have h := commands_group_lazy_once freshParserState commandField stringField rfl rfl rfl
  exact ⟨h.1, h.2.1, h.2.2.2.1⟩

/-! Claim C10. -/

/-- A one-field model whose field has no explicit alias. -/
def plainFields : List (String × FieldInfo) :=
  [("x", { annotation := some (.cls .strC), default := none, defaultFactory := none,
           aliasName := none, description := none })]

/-- C10 counterexample: registering a model mutates the original model class
in place: the field metadata of the returned original has its alias populated
with the field name, so the original model class object is not left
unmodified as the claim states. -/
theorem augmented_model_subclass_counterexample :
    (addModel "Args" plainFields).1 =
      ModelCls.user "Args"
        [("x", { annotation := some (.cls .strC), default := none, defaultFactory := none,
                 aliasName := some "x", description := none })] ∧
    (addModel "Args" plainFields).1 ≠ ModelCls.user "Args" plainFields := by
  refine ⟨rfl, ?_⟩
  intro h
  simp [addModel, setAliases, modelWithValidators, plainFields] at h

/-- C10 amended: `parse_typed_args` constructs its result from a dynamically
created subclass of the supplied model: same class name, the original as
base, augmented with the synthesized validators, so the result is an instance
of the original model type; the original class object is not replaced but is
mutated in place during registration, each field alias being populated with
the field name when previously unset and everything else left unchanged. -/
theorem augmented_model_subclass_amended (nm : String) (fs : List (String × FieldInfo)) :
    (addModel nm fs).2.nameOf = nm ∧
    (addModel nm fs).2 =
      ModelCls.derived nm (addModel nm fs).1 (collectValidators (setAliases fs)) ∧
    isSubclassM (addModel nm fs).2 (addModel nm fs).1 ∧
    (addModel nm fs).2 ≠ (addModel nm fs).1 ∧
    (addModel nm fs).1 = ModelCls.user nm (setAliases fs) := by
  refine ⟨rfl, rfl, ?_, ?_, rfl⟩
  · exact Or.inr rfl
  · intro h
    simp [addModel, modelWithValidators] at h
